import Mathlib

/-!
Verification of the vehicle-physics core of the AIGaming repository.

The development shallowly embeds the first (authoritative) variants of
`src/physics.js` (classes `PhysicsWorld` and `Vehicle`) and `src/game.js`
(functions `updateVehicle` and `resetCar`).  JavaScript numbers are modelled
as rationals; the two square roots that occur (`Vec3.unit` inside
`Vehicle.accelerate`, and the speed computation in `updateVehicle`) are kept
as explicit parameters, so every theorem quantifies over all possible values
of the square root and in particular over its true real value.
-/

/-- Model of `CANNON.Vec3`: a 3-component vector of rational coordinates. -/
structure Vec3 where
  x : ℚ
  y : ℚ
  z : ℚ
deriving Repr, DecidableEq

/-- The zero vector, as produced by `Vec3.setZero` / `new CANNON.Vec3()`. -/
def Vec3.zero : Vec3 := ⟨0, 0, 0⟩

/-- Model of `CANNON.Vec3.dot`. -/
def Vec3.dot (a b : Vec3) : ℚ := a.x * b.x + a.y * b.y + a.z * b.z

/-- Squared norm of a vector (`x*x + y*y + z*z`), the argument of the square
root taken inside `CANNON.Vec3.unit`. -/
def Vec3.normSq (v : Vec3) : ℚ := v.x * v.x + v.y * v.y + v.z * v.z

/-- Model of `CANNON.Vec3.unit`.  The library computes
`n = Math.sqrt(x*x+y*y+z*z)` and returns `(x/n, y/n, z/n)` when `n > 0`
(equivalently when the squared norm is positive) and `(1, 0, 0)` otherwise.
The irrational square root `n` is passed in as the parameter `n`; all
theorems below hold for every value of `n`, hence for the real square root. -/
def Vec3.unitWith (v : Vec3) (n : ℚ) : Vec3 :=
  if 0 < v.normSq then ⟨v.x / n, v.y / n, v.z / n⟩ else ⟨1, 0, 0⟩

/-- Model of `CANNON.Quaternion` (x, y, z, w components). -/
structure Quat where
  x : ℚ
  y : ℚ
  z : ℚ
  w : ℚ
deriving Repr, DecidableEq

/-- The identity quaternion `new CANNON.Quaternion()` (0,0,0,1). -/
def Quat.identity : Quat := ⟨0, 0, 0, 1⟩

/-- Model of `CANNON.Quaternion.vmult`: rotate the vector `v` by the
quaternion, using exactly the library's arithmetic. -/
def Quat.vmult (q : Quat) (v : Vec3) : Vec3 :=
  let ix : ℚ := q.w * v.x + q.y * v.z - q.z * v.y
  let iy : ℚ := q.w * v.y + q.z * v.x - q.x * v.z
  let iz : ℚ := q.w * v.z + q.x * v.y - q.y * v.x
  let iw : ℚ := -q.x * v.x - q.y * v.y - q.z * v.z
  ⟨ix * q.w + iw * (-q.x) + iy * (-q.z) - iz * (-q.y),
   iy * q.w + iw * (-q.y) + iz * (-q.x) - ix * (-q.z),
   iz * q.w + iw * (-q.z) + ix * (-q.y) - iy * (-q.x)⟩

/-- Model of `THREE.Vector3.applyQuaternion`, the rotation formula used by
`game.js` when it computes the chassis up vector for the flip check. -/
def threeApplyQuaternion (q : Quat) (v : Vec3) : Vec3 :=
  let tx : ℚ := 2 * (q.y * v.z - q.z * v.y)
  let ty : ℚ := 2 * (q.z * v.x - q.x * v.z)
  let tz : ℚ := 2 * (q.x * v.y - q.y * v.x)
  ⟨v.x + q.w * tx + q.y * tz - q.z * ty,
   v.y + q.w * ty + q.z * tx - q.x * tz,
   v.z + q.w * tz + q.x * ty - q.y * tx⟩

/-- The per-wheel command state held in a `CANNON` `WheelInfo` record, as far
as the claims are concerned: drive force, brake force, steering angle, and
suspension length together with its (constant) rest length. -/
structure WheelInfo where
  engineForce : ℚ
  brake : ℚ
  steering : ℚ
  suspensionLength : ℚ
  restLength : ℚ
deriving Repr, DecidableEq

/-- State of the `Vehicle` class of `src/physics.js` (first variant): the
tuning constants, the throttle ramp value, the chassis body fields mutated by
the control methods, and the four wheels.  The kinematic display wheel bodies
(`wheelBodies`) and the sleep flag (`wakeUp` — sleeping is disabled globally)
carry no information relevant to the claims and are not modelled. -/
structure VehicleState where
  maxForce : ℚ
  maxSteerVal : ℚ
  maxBrakeForce : ℚ
  currentThrottle : ℚ
  throttleIncreaseRate : ℚ
  throttleDecreaseRate : ℚ
  mass : ℚ
  position : Vec3
  quaternion : Quat
  velocity : Vec3
  angularVelocity : Vec3
  force : Vec3
  torque : Vec3
  wheels : Fin 4 → WheelInfo

/-- Replace the record of one wheel, leaving the other three untouched. -/
def VehicleState.updateWheel (s : VehicleState) (i : Fin 4) (w : WheelInfo) :
    VehicleState :=
  { s with wheels := fun j => if j = i then w else s.wheels j }

/-- Model of `CANNON.RaycastVehicle.setBrake`:
`this.wheelInfos[wheelIndex].brake = brakeForce`. -/
def RaycastVehicle.setBrake (s : VehicleState) (brakeForce : ℚ) (i : Fin 4) :
    VehicleState :=
  s.updateWheel i { s.wheels i with brake := brakeForce }

/-- Model of `CANNON.RaycastVehicle.setSteeringValue`:
`this.wheelInfos[wheelIndex].steering = value`. -/
def RaycastVehicle.setSteeringValue (s : VehicleState) (value : ℚ)
    (i : Fin 4) : VehicleState :=
  s.updateWheel i { s.wheels i with steering := value }

/-- Model of `CANNON.RaycastVehicle.applyEngineForce`:
`this.wheelInfos[wheelIndex].engineForce = value`. -/
def RaycastVehicle.applyEngineForce (s : VehicleState) (value : ℚ)
    (i : Fin 4) : VehicleState :=
  s.updateWheel i { s.wheels i with engineForce := value }

/-- The `wheelIndex === -1` branch of `Vehicle.setBrake` (physics.js 188-192):
apply the brake force to wheels 0,1,2,3 in turn. -/
def Vehicle.setBrakeAllWheels (s : VehicleState) (brakeForce : ℚ) :
    VehicleState :=
  RaycastVehicle.setBrake
    (RaycastVehicle.setBrake
      (RaycastVehicle.setBrake
        (RaycastVehicle.setBrake s brakeForce 0) brakeForce 1) brakeForce 2)
    brakeForce 3

/-- Model of `Vehicle.setBrake(brakeForce = 0, wheelIndex = -1)`
(physics.js 186-196).  The default value of `wheelIndex` is `-1`, meaning
"all wheels"; any other index is forwarded to the library, which indexes
`wheelInfos[wheelIndex]` and therefore faults (modelled as `none`) unless
the index is one of 0..3.  The `wakeUp()` call has no modelled effect
(sleeping is globally disabled). -/
def Vehicle.setBrake (s : VehicleState) (brakeForce : ℚ) (wheelIndex : ℤ) :
    Option VehicleState :=
  if wheelIndex = -1 then
    some (Vehicle.setBrakeAllWheels s brakeForce)
  else if h : 0 ≤ wheelIndex ∧ wheelIndex < 4 then
    some (RaycastVehicle.setBrake s brakeForce ⟨wheelIndex.toNat, by omega⟩)
  else none

/-- Model of `Vehicle.setSteeringValue` (physics.js 198-201); valid wheel
index, `wakeUp` without modelled effect. -/
def Vehicle.setSteeringValue (s : VehicleState) (steerValue : ℚ)
    (i : Fin 4) : VehicleState :=
  RaycastVehicle.setSteeringValue s steerValue i

/-- Model of `Vehicle.applyEngineForce` (physics.js 203-206). -/
def Vehicle.applyEngineForce (s : VehicleState) (force : ℚ) (i : Fin 4) :
    VehicleState :=
  RaycastVehicle.applyEngineForce s force i

/-- The chassis up vector computed in `Vehicle.accelerate` (physics.js
222-224): `this.chassisBody.quaternion.vmult(upAxis, chassisUp)`. -/
def Vehicle.chassisUpOf (q : Quat) : Vec3 := q.vmult ⟨0, 1, 0⟩

/-- The flatness scalar `slopeFactor = chassisUp.dot(upAxis)`
(physics.js 225). -/
def Vehicle.slopeFactorOf (q : Quat) : ℚ := (Vehicle.chassisUpOf q).dot ⟨0, 1, 0⟩

/-- The quantity `slopeDirection` of physics.js 227-236: the dot product of
the normalised horizontal forward direction with the vector
`(0, chassisUp.y < 0 ? -chassisUp.y : chassisUp.y, 0)`.  The parameter `n`
stands for the value of `Math.sqrt` inside `Vec3.unit`. -/
def Vehicle.slopeDirectionOf (q : Quat) (n : ℚ) : ℚ :=
  let chassisForward := q.vmult ⟨0, 0, -1⟩
  let horizontalForward := Vec3.unitWith ⟨chassisForward.x, 0, chassisForward.z⟩ n
  let cUp := Vehicle.chassisUpOf q
  horizontalForward.dot ⟨0, if cUp.y < 0 then -cUp.y else cUp.y, 0⟩

/-- The factor `slopeAdjustment = 1 + (1 - slopeFactor) * 2 * slopeDirection`
(physics.js 239) by which `Vehicle.accelerate` multiplies the throttle-scaled
engine force. -/
def Vehicle.slopeAdjustmentOf (q : Quat) (n : ℚ) : ℚ :=
  1 + (1 - Vehicle.slopeFactorOf q) * 2 * Vehicle.slopeDirectionOf q n

/-- Model of `Vehicle.accelerate(accelerating)` (physics.js 208-247): advance
the throttle ramp (`dt = 1/20`), compute the slope-adjusted engine force and
distribute it 40/40/20/20 across the four wheels.  `n` is the value of the
square root inside the `unit()` call (see `Vec3.unitWith`). -/
def Vehicle.accelerate (s : VehicleState) (accelerating : Bool) (n : ℚ) :
    VehicleState :=
  let dt : ℚ := 1 / 20
  let t : ℚ :=
    if accelerating then
      min 1 (s.currentThrottle + dt * s.throttleIncreaseRate)
    else
      max 0 (s.currentThrottle - dt * s.throttleDecreaseRate)
  let engineForce : ℚ := t * s.maxForce
  let engineForce : ℚ := engineForce * Vehicle.slopeAdjustmentOf s.quaternion n
  let s1 := { s with currentThrottle := t }
  let s2 := Vehicle.applyEngineForce s1 (engineForce * 0.4) 0
  let s3 := Vehicle.applyEngineForce s2 (engineForce * 0.4) 1
  let s4 := Vehicle.applyEngineForce s3 (engineForce * 0.2) 2
  Vehicle.applyEngineForce s4 (engineForce * 0.2) 3

/-- Model of `Vehicle.brake(force = this.maxBrakeForce)` (physics.js
249-257): slope-adjust the force by `(2 - slopeFactor)` and apply it to all
wheels through `setBrake`'s default `-1` branch. -/
def Vehicle.brake (s : VehicleState) (force : ℚ) : VehicleState :=
  let slopeFactor := Vehicle.slopeFactorOf s.quaternion
  let adjustedForce := force * (2 - slopeFactor)
  Vehicle.setBrakeAllWheels s adjustedForce

/-- Model of `Vehicle.steer(steerValue)` (physics.js 259-264): clamp to
`[-maxSteerVal, maxSteerVal]` and write the clamped value to wheels 0 and 1. -/
def Vehicle.steer (s : VehicleState) (steerValue : ℚ) : VehicleState :=
  let clampedSteer := max (-s.maxSteerVal) (min s.maxSteerVal steerValue)
  let s1 := Vehicle.setSteeringValue s clampedSteer 0
  Vehicle.setSteeringValue s1 clampedSteer 1

/-- One iteration of the wheel loop shared by `Vehicle.initWheels`
(physics.js 167-173) and `Vehicle.reset` (physics.js 278-282):
`applyEngineForce(0, i); setBrake(0, i); if (i < 2) setSteeringValue(0, i)`.
The `setBrake(0, i)` call takes the valid-index branch of `Vehicle.setBrake`
(see `Vehicle.setBrake_validIndex`). -/
def Vehicle.wheelInitStep (s : VehicleState) (i : Fin 4) : VehicleState :=
  let s1 := Vehicle.applyEngineForce s 0 i
  let s2 := RaycastVehicle.setBrake s1 0 i
  if i.val < 2 then Vehicle.setSteeringValue s2 0 i else s2

/-- Model of `Vehicle.initWheels` (physics.js 167-173). -/
def Vehicle.initWheels (s : VehicleState) : VehicleState :=
  Vehicle.wheelInitStep
    (Vehicle.wheelInitStep (Vehicle.wheelInitStep (Vehicle.wheelInitStep s 0) 1) 2) 3

/-- Model of `Vehicle.update` (physics.js 175-183).  The method only copies
each wheel's freshly derived world transform onto the corresponding kinematic
display body; it reads but never writes the modelled chassis and wheel-command
fields, so on the modelled state it is the identity. -/
def Vehicle.update (s : VehicleState) : VehicleState := s

/-- Model of `Vehicle.reset(position, quaternion)` (physics.js 266-307).
Zeroes velocities/forces/torques, moves the chassis, clears the per-wheel
commands, applies a `maxBrakeForce * 0.1` stabilising brake to all wheels,
resets the throttle ramp, writes the extra downward stabilising force
`force.y = -mass * 9.81 * 1.1`, and pins every suspension to its rest
length.  (Defaults in the source are `position = (0,1,0)` and the identity
quaternion; callers in scope always pass both arguments.) -/
def Vehicle.reset (s : VehicleState) (position : Vec3) (quaternion : Quat) :
    VehicleState :=
  let s1 := { s with
    velocity := Vec3.zero
    angularVelocity := Vec3.zero
    force := Vec3.zero
    torque := Vec3.zero
    position := position
    quaternion := quaternion }
  let s2 := Vehicle.wheelInitStep
    (Vehicle.wheelInitStep (Vehicle.wheelInitStep (Vehicle.wheelInitStep s1 0) 1) 2) 3
  let s3 := Vehicle.setBrakeAllWheels s2 (s2.maxBrakeForce * 0.1)
  let s4 := Vehicle.update s3
  let s5 := { s4 with currentThrottle := 0 }
  let s6 := { s5 with force := { s5.force with y := -(s5.mass * 9.81 * 1.1) } }
  let s7 := { s6 with
    wheels := fun i => { s6.wheels i with suspensionLength := (s6.wheels i).restLength } }
  Vehicle.update s7

/-- The state of a freshly constructed `Vehicle` (physics.js 57-165):
tuning constants `maxForce = 6000`, `maxSteerVal = 0.7`,
`maxBrakeForce = 6000`, throttle rates 0.5 / 0.3, chassis mass 1200, zero
initial velocities and forces, wheel rest length 0.4, all wheel commands
zeroed by `initWheels`. -/
def Vehicle.mkInitial : VehicleState :=
  Vehicle.initWheels
    { maxForce := 6000
      maxSteerVal := 0.7
      maxBrakeForce := 6000
      currentThrottle := 0
      throttleIncreaseRate := 0.5
      throttleDecreaseRate := 0.3
      mass := 1200
      position := ⟨0, 1, 0⟩
      quaternion := Quat.identity
      velocity := Vec3.zero
      angularVelocity := Vec3.zero
      force := Vec3.zero
      torque := Vec3.zero
      wheels := fun _ =>
        { engineForce := 0, brake := 0, steering := 0
          suspensionLength := 0.4, restLength := 0.4 } }

/-- State of the `PhysicsWorld` wrapper of `src/physics.js` (first variant):
the fixed timestep (1/60), the sub-step cap (3), and the solver's internal
time accumulator carried between calls. -/
structure PhysicsWorldState where
  fixedTimeStep : ℚ
  maxSubSteps : ℕ
  accumulator : ℚ
deriving Repr, DecidableEq

/-- Modelled from the spec: the third-party solver's fixed-timestep sub-step
loop invoked by `this.world.step(fixedTimeStep, clampedDelta, maxSubSteps)`
(the body of `cannon-es` `World.step` is not part of this repository).  Per
the spec it "advances the simulation using the fixed timestep and at most
`maxSubSteps` sub-steps": while the accumulator holds at least one timestep
and sub-steps remain, perform one internal step of length `dt`.  `fuel` is
the number of sub-steps still allowed; the library's additional wall-clock
early exit can only lower the count and is omitted (the worst case for the
upper bounds proved below). -/
def worldStepSubsteps (dt : ℚ) : ℚ → ℕ → ℕ
  | _, 0 => 0
  | acc, fuel + 1 =>
    if dt ≤ acc then worldStepSubsteps dt (acc - dt) fuel + 1 else 0

/-- Result of one `PhysicsWorld.update` call: the clamped wall-clock delta,
the number of internal sub-steps performed, and the simulated time advanced
(each sub-step advances exactly `fixedTimeStep`). -/
structure StepResult where
  clampedDelta : ℚ
  substeps : ℕ
  advanced : ℚ
deriving Repr, DecidableEq

/-- Model of `PhysicsWorld.update(deltaTime)` (physics.js 49-54): clamp the
delta to `1/30` and hand it to the solver's sub-step loop. -/
def PhysicsWorld.update (w : PhysicsWorldState) (deltaTime : ℚ) : StepResult :=
  let maxDelta : ℚ := 1 / 30
  let clampedDelta := min deltaTime maxDelta
  let n := worldStepSubsteps w.fixedTimeStep (w.accumulator + clampedDelta) w.maxSubSteps
  ⟨clampedDelta, n, n * w.fixedTimeStep⟩

/-- A `PhysicsWorld` as constructed in physics.js 44-46: timestep 1/60,
at most 3 sub-steps, empty accumulator. -/
def PhysicsWorld.mkInitial : PhysicsWorldState := ⟨1 / 60, 3, 0⟩

/-- One observable call made by `updateVehicle` / `resetCar` in `src/game.js`
on the vehicle, the physics world or the supervisor, in program order. -/
inductive Cmd where
  | wakeUpCmd : Cmd
  | clampPosY : ℚ → Cmd
  | impulse : Vec3 → Cmd
  | accelerateCmd : ℚ → Cmd
  | brakeCmd : ℚ → Cmd
  | steerCmd : ℚ → Cmd
  | resetCarCmd : Vec3 → ℚ → Cmd
  | vehicleUpdateCmd : Cmd
  | visualUpdateCmd : Cmd
  | cameraCmd : Cmd
deriving Repr, DecidableEq

/-- The six input flags sampled at the top of `updateVehicle` (game.js
450-455); each models the disjunction of its two key codes, e.g.
`accelerate = keys.ArrowUp || keys.KeyW`, `emergencyBrake = keys.Space`. -/
structure Keys where
  accelerate : Bool
  brake : Bool
  left : Bool
  right : Bool
  reset : Bool
  space : Bool
deriving Repr, DecidableEq

/-- The data `updateVehicle` reads each frame: the presence/started guards,
the chassis state it samples, the vehicle's tuning constants, the previous
steering value kept on the vehicle, and the current track's start pose.
`currentSpeed` stands for `Math.sqrt(velocity.x^2 + velocity.z^2)` (game.js
459-462); the square root is kept abstract and every theorem below holds for
all of its values. -/
structure FrameState where
  vehiclePresent : Bool
  gameStarted : Bool
  currentSpeed : ℚ
  velocityZ : ℚ
  posX : ℚ
  posY : ℚ
  posZ : ℚ
  quat : Quat
  previousSteerValue : ℚ
  maxForce : ℚ
  maxSteerVal : ℚ
  maxBrakeForce : ℚ
  startPos : Vec3
  startRot : ℚ
deriving Repr, DecidableEq

/-- The acceleration/braking/coasting block of `updateVehicle` (game.js
482-542), as the list of vehicle calls it makes. -/
def driveCmds (f : FrameState) (k : Keys) : List Cmd :=
  if k.accelerate then
    (if f.currentSpeed < 0.1 then
      [Cmd.impulse ⟨0, 0, -f.maxForce * 0.1⟩, Cmd.accelerateCmd (f.maxForce * 1.5)]
    else
      [Cmd.accelerateCmd (f.maxForce * max 0.5 (min 2.0 (5.0 / f.currentSpeed)))])
    ++ [Cmd.brakeCmd 0]
  else if k.brake then
    if f.currentSpeed < 0.2 then
      [Cmd.accelerateCmd (-f.maxForce)]
      ++ (if |f.velocityZ| < 0.1 then [Cmd.impulse ⟨0, 0, f.maxForce * 0.1⟩] else [])
      ++ [Cmd.brakeCmd 0]
    else if f.velocityZ < 0 then
      [Cmd.accelerateCmd 0, Cmd.brakeCmd (f.maxBrakeForce * 0.7)]
    else
      [Cmd.accelerateCmd 0, Cmd.brakeCmd (f.maxBrakeForce * 0.5)]
  else
    [Cmd.accelerateCmd 0]
    ++ (if f.currentSpeed > 0.5 then [Cmd.brakeCmd (f.maxBrakeForce * 0.01)]
        else if f.currentSpeed > 0.1 then [Cmd.brakeCmd (f.maxBrakeForce * 0.03)]
        else [Cmd.brakeCmd 0])

/-- The progressive steering factor (game.js 545-546):
`max(0.3, 1 - currentSpeed / maxSpeedForFullSteering)` with
`maxSpeedForFullSteering = 15`. -/
def steeringFactorOf (speed : ℚ) : ℚ := max 0.3 (1 - speed / 15)

/-- The target steering value of game.js 553-561 (left has priority over
right, zero when neither flag is set). -/
def targetSteerOf (f : FrameState) (k : Keys) : ℚ :=
  if k.left then f.maxSteerVal * steeringFactorOf f.currentSpeed
  else if k.right then -f.maxSteerVal * steeringFactorOf f.currentSpeed
  else 0

/-- The `brake(0)` calls made inside the left/right branches at very low
speed (game.js 557 and 560). -/
def steerPreludeCmds (f : FrameState) (k : Keys) : List Cmd :=
  if k.left then (if f.currentSpeed < 0.5 then [Cmd.brakeCmd 0] else [])
  else if k.right then (if f.currentSpeed < 0.5 then [Cmd.brakeCmd 0] else [])
  else []

/-- The steering blend factor (game.js 564): 0.5 below speed 1, else 0.1. -/
def steerBlendFactorOf (speed : ℚ) : ℚ := if speed < 1 then 0.5 else 0.1

/-- The blended steering command of game.js 565:
`previousSteerValue * (1 - blend) + targetSteer * blend`. -/
def newSteerValueOf (f : FrameState) (k : Keys) : ℚ :=
  f.previousSteerValue * (1 - steerBlendFactorOf f.currentSpeed)
    + targetSteerOf f k * steerBlendFactorOf f.currentSpeed

/-- The chassis up vector dotted with world up as computed by the recovery
check (game.js 584-591): rotate `(0,1,0)` by the chassis quaternion using
the `THREE` formula and take the dot product with `(0,1,0)`. -/
def carUpDotOf (q : Quat) : ℚ :=
  (threeApplyQuaternion q ⟨0, 1, 0⟩).dot ⟨0, 1, 0⟩

/-- The recovery condition of game.js 594-595:
`position.y < -5 || |position.x| > 50 || |position.z| > 50 || isFlipped`,
with `isFlipped = carUp.dot(upVec) < -0.5`. -/
def recoveryCondition (f : FrameState) : Prop :=
  f.posY < -5 ∨ |f.posX| > 50 ∨ |f.posZ| > 50 ∨ carUpDotOf f.quat < -0.5

instance (f : FrameState) : Decidable (recoveryCondition f) := by
  unfold recoveryCondition; infer_instance

/-- Model of `updateVehicle()` (game.js 446-601) as the ordered list of calls
it makes during one frame: the early-out guards, the reset-key short circuit,
the ground clamp, the drive block, steering, the emergency-brake override,
the vehicle/visual updates, the recovery check and the camera update. -/
def updateVehicle (f : FrameState) (k : Keys) : List Cmd :=
  if ¬f.vehiclePresent ∨ ¬f.gameStarted then []
  else
    [Cmd.wakeUpCmd] ++
    (if k.reset then [Cmd.resetCarCmd f.startPos f.startRot]
     else
      (if f.posY < 0.5 then [Cmd.clampPosY 0.7] else [])
      ++ driveCmds f k
      ++ steerPreludeCmds f k
      ++ [Cmd.steerCmd (newSteerValueOf f k)]
      ++ (if k.space then [Cmd.brakeCmd f.maxBrakeForce, Cmd.accelerateCmd 0] else [])
      ++ [Cmd.vehicleUpdateCmd, Cmd.visualUpdateCmd]
      ++ (if recoveryCondition f then [Cmd.resetCarCmd f.startPos f.startRot] else [])
      ++ [Cmd.cameraCmd])

/-- Selector for `vehicle.brake(...)` calls in a frame trace. -/
def brakeArgOf : Cmd → Option ℚ
  | Cmd.brakeCmd b => some b
  | _ => none

/-- Selector for `vehicle.accelerate(...)` calls in a frame trace. -/
def accelArgOf : Cmd → Option ℚ
  | Cmd.accelerateCmd a => some a
  | _ => none

/-- Selector for `vehicle.steer(...)` calls in a frame trace. -/
def steerArgOf : Cmd → Option ℚ
  | Cmd.steerCmd v => some v
  | _ => none

/-- The argument of the last command matched by `g` in a frame trace; each
of the vehicle's brake/engine/steer setters overwrites the previous call's
values, so the last call is the one whose effect stands at the end of the
frame. -/
def lastArgWith (g : Cmd → Option ℚ) (tr : List Cmd) : Option ℚ :=
  tr.foldl (fun acc c => (g c).elim acc some) none

/-- The argument of the last `vehicle.brake(...)` call of a frame. -/
def lastBrakeArg (tr : List Cmd) : Option ℚ := lastArgWith brakeArgOf tr

/-- The argument of the last `vehicle.accelerate(...)` call of a frame. -/
def lastAccelArg (tr : List Cmd) : Option ℚ := lastArgWith accelArgOf tr

/-- The argument of the last `vehicle.steer(...)` call of a frame. -/
def lastSteerArg (tr : List Cmd) : Option ℚ := lastArgWith steerArgOf tr

/-- The targets of all `resetCar` calls issued during a frame, in order. -/
def resetCallTargets (tr : List Cmd) : List (Vec3 × ℚ) :=
  tr.filterMap fun c => match c with
    | Cmd.resetCarCmd p r => some (p, r)
    | _ => none

/-- The game state touched by the synchronous phase of `resetCar` (game.js
282-353): the existence guards, the re-entrancy flag stored on the vehicle,
the vehicle state itself, and the number of deferred (`setTimeout`)
continuations scheduled so far. -/
structure GameState where
  vehiclePresent : Bool
  vehicleVisualPresent : Bool
  isResetting : Bool
  vehicle : VehicleState
  pendingTimeouts : ℕ

/-- Model of the synchronous phase of `resetCar(position, rotation)`
(game.js 282-296): return unchanged when the vehicle or its visual is
missing, return unchanged when a reset is already in progress
(`isResetting`), otherwise raise the flag, stop the vehicle
(`accelerate(0)` — falsy, so the throttle ramp decays — then
`brake(maxBrakeForce)`), and schedule the deferred continuation that later
performs the actual repositioning.  `n` is the square-root parameter
threaded to `Vehicle.accelerate`. -/
def resetCar (g : GameState) (n : ℚ) : GameState :=
  if ¬g.vehiclePresent ∨ ¬g.vehicleVisualPresent then g
  else if g.isResetting then g
  else
    let v := Vehicle.accelerate g.vehicle false n
    let v := Vehicle.brake v v.maxBrakeForce
    { g with isResetting := true, vehicle := v,
             pendingTimeouts := g.pendingTimeouts + 1 }

@[simp]
lemma VehicleState.updateWheel_wheels (s : VehicleState) (i : Fin 4)
    (w : WheelInfo) (j : Fin 4) :
    (s.updateWheel i w).wheels j = if j = i then w else s.wheels j := rfl

/-- The `wheelIndex = -1` branch of `Vehicle.setBrake` writes the same brake
force to every wheel and touches nothing else. -/
lemma Vehicle.setBrakeAllWheels_eq (s : VehicleState) (f : ℚ) :
    Vehicle.setBrakeAllWheels s f =
      { s with wheels := fun i => { s.wheels i with brake := f } } := by
  unfold Vehicle.setBrakeAllWheels RaycastVehicle.setBrake VehicleState.updateWheel
  congr 1
  funext j
  fin_cases j <;> rfl

/-- Claim C10: at the public interface, `setBrake(f, -1)` (which is also the
default call `setBrake(f)`) writes the brake force `f` to each of the four
wheels, while `setBrake(f, i)` for a wheel index `i` in 0..3 writes it to
wheel `i` only; the `-1` sentinel therefore means "all wheels". -/
theorem setBrake_sentinel_all_wheels (s : VehicleState) (f : ℚ) :
    Vehicle.setBrake s f (-1) =
      some { s with wheels := fun i => { s.wheels i with brake := f } } ∧
    ∀ i : Fin 4, Vehicle.setBrake s f (i.val : ℤ) =
      some (s.updateWheel i { s.wheels i with brake := f }) := by
  constructor
  · simp [Vehicle.setBrake, Vehicle.setBrakeAllWheels_eq]
  · intro i
    fin_cases i <;> simp [Vehicle.setBrake, RaycastVehicle.setBrake]

/-- Claim C3: immediately after `reset(pos, orient)` returns, the chassis has
zero linear velocity, zero angular velocity, position `pos` and orientation
`orient` (the model is exact, so "within floating tolerance" is equality). -/
theorem reset_zeroes_velocity_and_sets_pose (s : VehicleState) (pos : Vec3)
    (orient : Quat) :
    (Vehicle.reset s pos orient).velocity = Vec3.zero ∧
    (Vehicle.reset s pos orient).angularVelocity = Vec3.zero ∧
    (Vehicle.reset s pos orient).position = pos ∧
    (Vehicle.reset s pos orient).quaternion = orient := by
  refine ⟨?_, ?_, ?_, ?_⟩ <;> rfl

lemma finval0 : ((0 : Fin 4)).val = 0 := rfl

lemma finval1 : ((1 : Fin 4)).val = 1 := rfl

lemma finval2 : ((2 : Fin 4)).val = 2 := rfl

lemma finval3 : ((3 : Fin 4)).val = 3 := rfl

/-- The force left on the chassis by `reset` is exactly the downward
stabilising force written at physics.js 297. -/
lemma reset_force_eq (s : VehicleState) (pos : Vec3) (orient : Quat) :
    (Vehicle.reset s pos orient).force = ⟨0, -(s.mass * 9.81 * 1.1), 0⟩ := by
  simp [Vehicle.reset, Vehicle.update, Vehicle.setBrakeAllWheels, Vehicle.wheelInitStep,
    Vehicle.applyEngineForce, Vehicle.setSteeringValue, RaycastVehicle.setBrake,
    RaycastVehicle.setSteeringValue, RaycastVehicle.applyEngineForce, VehicleState.updateWheel,
    Vec3.zero, finval0, finval1, finval2, finval3]

/-- The per-wheel command state after `reset`: engine force 0, the minimal
stabilising brake, steering cleared on the front wheels, and the suspension
pinned to the rest length. -/
lemma reset_wheels_eq (s : VehicleState) (pos : Vec3) (orient : Quat) (i : Fin 4) :
    (Vehicle.reset s pos orient).wheels i =
      { engineForce := 0, brake := s.maxBrakeForce * 0.1,
        steering := if i.val < 2 then 0 else (s.wheels i).steering,
        suspensionLength := (s.wheels i).restLength,
        restLength := (s.wheels i).restLength } := by
  fin_cases i <;>
    simp [Vehicle.reset, Vehicle.update, Vehicle.setBrakeAllWheels, Vehicle.wheelInitStep,
      Vehicle.applyEngineForce, Vehicle.setSteeringValue, RaycastVehicle.setBrake,
      RaycastVehicle.setSteeringValue, RaycastVehicle.applyEngineForce, VehicleState.updateWheel,
      Vec3.zero, finval0, finval1, finval2, finval3]

/-- Counterexample to claim C4: after `reset` the accumulated force on the
chassis is not zero — physics.js 297 deliberately leaves the downward
stabilising force `(0, -mass * 9.81 * 1.1, 0) = (0, -12949.2, 0)` on the
freshly constructed vehicle. -/
theorem reset_force_not_zero_counterexample :
    (Vehicle.reset Vehicle.mkInitial ⟨0, 1, 0⟩ Quat.identity).force =
      ⟨0, -(64746 / 5), 0⟩ ∧
    (Vehicle.reset Vehicle.mkInitial ⟨0, 1, 0⟩ Quat.identity).force ≠
      Vec3.zero := by
  have h := reset_force_eq Vehicle.mkInitial ⟨0, 1, 0⟩ Quat.identity
  have hm : Vehicle.mkInitial.mass = 1200 := rfl
  rw [h, hm]
  constructor
  · norm_num [Vec3.mk.injEq]
  · norm_num [Vec3.zero, Vec3.mk.injEq]

/-- Claim C4 as amended: `reset` leaves zero accumulated torque but a
downward stabilising force `(0, -mass*9.81*1.1, 0)` on the chassis (not zero
force), applies zero engine force and the minimal stabilising brake
`maxBrakeForce * 0.1` to every wheel, and sets every wheel's suspension
length back to its rest length. -/
theorem reset_state_after_amended (s : VehicleState) (pos : Vec3)
    (orient : Quat) :
    (Vehicle.reset s pos orient).torque = Vec3.zero ∧
    (Vehicle.reset s pos orient).force = ⟨0, -(s.mass * 9.81 * 1.1), 0⟩ ∧
    (∀ i : Fin 4, ((Vehicle.reset s pos orient).wheels i).engineForce = 0) ∧
    (∀ i : Fin 4,
      ((Vehicle.reset s pos orient).wheels i).brake = s.maxBrakeForce * 0.1) ∧
    (∀ i : Fin 4,
      ((Vehicle.reset s pos orient).wheels i).suspensionLength =
        (s.wheels i).restLength) := by
  refine ⟨rfl, reset_force_eq s pos orient, ?_, ?_, ?_⟩ <;>
    exact fun i => by rw [reset_wheels_eq]

/-- The slope adjustment computed by `Vehicle.accelerate` is identically 1,
whatever the chassis orientation and whatever value the square root inside
`unit()` takes: the code zeroes the y component of the forward vector before
dotting it with a vector whose only nonzero component is y, so
`slopeDirection` is always 0. -/
lemma slopeDirection_eq_zero (q : Quat) (n : ℚ) :
    Vehicle.slopeDirectionOf q n = 0 := by
  unfold Vehicle.slopeDirectionOf Vec3.unitWith Vec3.dot
  dsimp only
  split <;> simp

/-- Consequence: the slope adjustment factor is identically 1. -/
lemma slopeAdjustment_eq_one (q : Quat) (n : ℚ) :
    Vehicle.slopeAdjustmentOf q n = 1 := by
  unfold Vehicle.slopeAdjustmentOf
  rw [slopeDirection_eq_zero]
  ring

/-- Claim C1 (code bug): the slope adjustment of `Vehicle.accelerate` never
has any effect.  The adjustment factor equals 1 for every orientation and
every square-root value, so the engine force applied to each wheel on an
incline is identical to the force applied on flat ground; in particular for
the concrete climbing orientation `q = (0.6, 0, 0, 0.8)` the flatness scalar
is 7/25 ≠ 1, yet the adjustment factor is still exactly 1. -/
theorem accelerate_slope_adjustment_vanishes :
    (∀ (q : Quat) (n : ℚ), Vehicle.slopeAdjustmentOf q n = 1) ∧
    (∀ (s : VehicleState) (accelerating : Bool) (n m : ℚ) (i : Fin 4),
      ((Vehicle.accelerate s accelerating n).wheels i).engineForce =
        ((Vehicle.accelerate { s with quaternion := Quat.identity }
            accelerating m).wheels i).engineForce) ∧
    Vehicle.slopeFactorOf ⟨3/5, 0, 0, 4/5⟩ = 7/25 ∧
    Vehicle.slopeAdjustmentOf ⟨3/5, 0, 0, 4/5⟩ (7/25) = 1 := by
  refine ⟨slopeAdjustment_eq_one, ?_,
    by norm_num [Vehicle.slopeFactorOf, Vehicle.chassisUpOf, Quat.vmult, Vec3.dot],
    slopeAdjustment_eq_one _ _⟩
  intro s accelerating n m i
  fin_cases i <;>
    simp [Vehicle.accelerate, Vehicle.applyEngineForce,
      RaycastVehicle.applyEngineForce, slopeAdjustment_eq_one]

/-- Iterated calls of `Vehicle.accelerate` with a fixed flag, modelling a
player holding (or releasing) the accelerator over consecutive frames. -/
def Vehicle.accelerateIter (s : VehicleState) (b : Bool) (n : ℚ) : ℕ → VehicleState
  | 0 => s
  | k + 1 => Vehicle.accelerate (Vehicle.accelerateIter s b n k) b n

lemma accelerate_currentThrottle (s : VehicleState) (b : Bool) (n : ℚ) :
    (Vehicle.accelerate s b n).currentThrottle =
      if b then min 1 (s.currentThrottle + 1 / 20 * s.throttleIncreaseRate)
      else max 0 (s.currentThrottle - 1 / 20 * s.throttleDecreaseRate) := rfl

lemma accelerate_throttleRates (s : VehicleState) (b : Bool) (n : ℚ) :
    (Vehicle.accelerate s b n).throttleIncreaseRate = s.throttleIncreaseRate ∧
    (Vehicle.accelerate s b n).throttleDecreaseRate = s.throttleDecreaseRate :=
  ⟨rfl, rfl⟩

lemma accelerateIter_throttleRates (s : VehicleState) (b : Bool) (n : ℚ) (k : ℕ) :
    (Vehicle.accelerateIter s b n k).throttleIncreaseRate = s.throttleIncreaseRate ∧
    (Vehicle.accelerateIter s b n k).throttleDecreaseRate = s.throttleDecreaseRate := by
  induction k with
  | zero => exact ⟨rfl, rfl⟩
  | succ k ih =>
    exact ⟨((accelerate_throttleRates _ b n).1).trans ih.1,
           ((accelerate_throttleRates _ b n).2).trans ih.2⟩

lemma accelerateIter_succ_true (s : VehicleState) (n : ℚ) (k : ℕ)
    (hinc : s.throttleIncreaseRate = 0.5) :
    (Vehicle.accelerateIter s true n (k + 1)).currentThrottle =
      min 1 ((Vehicle.accelerateIter s true n k).currentThrottle + 1 / 40) := by
  have h := accelerate_currentThrottle (Vehicle.accelerateIter s true n k) true n
  rw [(accelerateIter_throttleRates s true n k).1, hinc] at h
  rw [show Vehicle.accelerateIter s true n (k + 1) =
      Vehicle.accelerate (Vehicle.accelerateIter s true n k) true n from rfl, h]
  norm_num

lemma accelerateIter_succ_false (s : VehicleState) (n : ℚ) (k : ℕ)
    (hdec : s.throttleDecreaseRate = 0.3) :
    (Vehicle.accelerateIter s false n (k + 1)).currentThrottle =
      max 0 ((Vehicle.accelerateIter s false n k).currentThrottle - 3 / 200) := by
  have h := accelerate_currentThrottle (Vehicle.accelerateIter s false n k) false n
  rw [(accelerateIter_throttleRates s false n k).2, hdec] at h
  rw [show Vehicle.accelerateIter s false n (k + 1) =
      Vehicle.accelerate (Vehicle.accelerateIter s false n k) false n from rfl, h]
  norm_num

/-- Claim C2: with the constructor's ramp rates (0.5 up, 0.3 down per
second, `dt = 1/20`), starting from any throttle in `[0,1]`: repeated
`accelerate(true)` never decreases the throttle and it reaches and stays at
the saturation value 1 (after 40 calls at the latest); repeated
`accelerate(false)` never increases it and it never goes below 0. -/
theorem accelerate_throttle_monotone_saturating (s : VehicleState) (n : ℚ)
    (h0 : 0 ≤ s.currentThrottle) (h1 : s.currentThrottle ≤ 1)
    (hinc : s.throttleIncreaseRate = 0.5) (hdec : s.throttleDecreaseRate = 0.3) :
    (∀ k : ℕ, (Vehicle.accelerateIter s true n k).currentThrottle ≤
        (Vehicle.accelerateIter s true n (k + 1)).currentThrottle) ∧
    (∀ k : ℕ, 40 ≤ k → (Vehicle.accelerateIter s true n k).currentThrottle = 1) ∧
    (∀ k : ℕ, (Vehicle.accelerateIter s false n (k + 1)).currentThrottle ≤
        (Vehicle.accelerateIter s false n k).currentThrottle) ∧
    (∀ k : ℕ, 0 ≤ (Vehicle.accelerateIter s false n k).currentThrottle) := by
  have hub : ∀ k : ℕ, (Vehicle.accelerateIter s true n k).currentThrottle ≤ 1 := by
    intro k
    cases k with
    | zero => exact h1
    | succ k =>
      rw [accelerateIter_succ_true s n k hinc]
      exact min_le_left _ _
  have hlb : ∀ k : ℕ, min 1 (s.currentThrottle + (k : ℚ) * (1 / 40)) ≤
      (Vehicle.accelerateIter s true n k).currentThrottle := by
    intro k
    induction k with
    | zero =>
      simp only [Nat.cast_zero, zero_mul, add_zero, Vehicle.accelerateIter]
      exact min_le_right 1 s.currentThrottle
    | succ k ih =>
      rw [accelerateIter_succ_true s n k hinc]
      rcases le_total (s.currentThrottle + (k : ℚ) * (1 / 40)) 1 with hk | hk
      · rw [min_eq_right hk] at ih
        apply min_le_min (le_refl 1)
        push_cast
        linarith
      · rw [min_eq_left hk] at ih
        have hx : (1 : ℚ) ≤
            (Vehicle.accelerateIter s true n k).currentThrottle + 1 / 40 := by linarith
        exact le_trans (min_le_left _ _) (le_min (le_refl 1) hx)
  have hge0 : ∀ k : ℕ, 0 ≤ (Vehicle.accelerateIter s false n k).currentThrottle := by
    intro k
    cases k with
    | zero => exact h0
    | succ k =>
      rw [accelerateIter_succ_false s n k hdec]
      exact le_max_left _ _
  refine ⟨?_, ?_, ?_, hge0⟩
  · intro k
    rw [accelerateIter_succ_true s n k hinc]
    exact le_min (hub k) (by linarith)
  · intro k hk
    have h40 : (1 : ℚ) ≤ s.currentThrottle + (k : ℚ) * (1 / 40) := by
      have hkq : (40 : ℚ) ≤ (k : ℚ) := by exact_mod_cast hk
      linarith
    have := hlb k
    rw [min_eq_left h40] at this
    exact le_antisymm (hub k) this
  · intro k
    rw [accelerateIter_succ_false s n k hdec]
    exact max_le (hge0 k) (by linarith)

/-- Witness for C2 at the freshly constructed vehicle. -/
theorem accelerate_throttle_monotone_saturating_witness :
    (Vehicle.accelerateIter Vehicle.mkInitial true 1 40).currentThrottle = 1 ∧
    0 ≤ (Vehicle.accelerateIter Vehicle.mkInitial false 1 7).currentThrottle := by
  have h := accelerate_throttle_monotone_saturating Vehicle.mkInitial 1
    (by norm_num [show Vehicle.mkInitial.currentThrottle = 0 from rfl])
    (by norm_num [show Vehicle.mkInitial.currentThrottle = 0 from rfl])
    rfl rfl
  exact ⟨h.2.1 40 (le_refl 40), h.2.2.2 7⟩

/-- The driver-facing operations of the `Vehicle` class, i.e. the methods
the game loop and the reset path invoke on a live vehicle (`game.js` never
calls the raw per-wheel `setSteeringValue` passthrough; steering reaches the
wheels only through `steer`, `reset` and `initWheels`, all listed here). -/
inductive VehicleOp where
  | steerOp (v : ℚ)
  | accelerateOp (b : Bool) (n : ℚ)
  | brakeOp (f : ℚ)
  | setBrakeAllOp (f : ℚ)
  | setBrakeWheelOp (f : ℚ) (i : Fin 4)
  | applyEngineForceOp (f : ℚ) (i : Fin 4)
  | resetOp (p : Vec3) (q : Quat)
  | initWheelsOp
  | updateOp
deriving DecidableEq

/-- Apply one driver-facing operation to the vehicle state. -/
def Vehicle.applyOp (s : VehicleState) : VehicleOp → VehicleState
  | .steerOp v => Vehicle.steer s v
  | .accelerateOp b n => Vehicle.accelerate s b n
  | .brakeOp f => Vehicle.brake s f
  | .setBrakeAllOp f => Vehicle.setBrakeAllWheels s f
  | .setBrakeWheelOp f i => RaycastVehicle.setBrake s f i
  | .applyEngineForceOp f i => Vehicle.applyEngineForce s f i
  | .resetOp p q => Vehicle.reset s p q
  | .initWheelsOp => Vehicle.initWheels s
  | .updateOp => Vehicle.update s

lemma abs_clamp_le (m v : ℚ) (hm : 0 ≤ m) : |max (-m) (min m v)| ≤ m := by
  rw [abs_le]
  constructor
  · exact le_max_left _ _
  · exact max_le (by linarith) (min_le_left _ _)

/-- Wheel state after `Vehicle.steer`: the clamped value is written to the
two front wheels, the rear wheels are untouched. -/
lemma steer_wheels (s : VehicleState) (v : ℚ) (j : Fin 4) :
    (Vehicle.steer s v).wheels j =
      if j.val < 2 then
        { s.wheels j with steering := max (-s.maxSteerVal) (min s.maxSteerVal v) }
      else s.wheels j := by
  fin_cases j <;>
    simp [Vehicle.steer, Vehicle.setSteeringValue, RaycastVehicle.setSteeringValue,
      VehicleState.updateWheel, finval0, finval1, finval2, finval3]

/-- Wheel state after `Vehicle.initWheels`: forces and brakes zeroed,
steering zeroed on the front wheels only. -/
lemma initWheels_wheels (s : VehicleState) (j : Fin 4) :
    (Vehicle.initWheels s).wheels j =
      { engineForce := 0, brake := 0,
        steering := if j.val < 2 then 0 else (s.wheels j).steering,
        suspensionLength := (s.wheels j).suspensionLength,
        restLength := (s.wheels j).restLength } := by
  fin_cases j <;>
    simp [Vehicle.initWheels, Vehicle.wheelInitStep, Vehicle.applyEngineForce,
      RaycastVehicle.applyEngineForce, RaycastVehicle.setBrake, Vehicle.setSteeringValue,
      RaycastVehicle.setSteeringValue, VehicleState.updateWheel,
      finval0, finval1, finval2, finval3]

lemma setBrakeAllWheels_steering (s : VehicleState) (f : ℚ) (j : Fin 4) :
    ((Vehicle.setBrakeAllWheels s f).wheels j).steering = (s.wheels j).steering := by
  rw [Vehicle.setBrakeAllWheels_eq]

lemma accelerate_wheels_steering (s : VehicleState) (b : Bool) (n : ℚ) (j : Fin 4) :
    ((Vehicle.accelerate s b n).wheels j).steering = (s.wheels j).steering := by
  fin_cases j <;>
    simp [Vehicle.accelerate, Vehicle.applyEngineForce, RaycastVehicle.applyEngineForce,
      VehicleState.updateWheel]

lemma setBrakeWheel_steering (s : VehicleState) (f : ℚ) (i j : Fin 4) :
    ((RaycastVehicle.setBrake s f i).wheels j).steering = (s.wheels j).steering := by
  simp only [RaycastVehicle.setBrake, VehicleState.updateWheel_wheels]
  split <;> simp_all

lemma applyEngineForce_steering (s : VehicleState) (f : ℚ) (i j : Fin 4) :
    ((Vehicle.applyEngineForce s f i).wheels j).steering = (s.wheels j).steering := by
  simp only [Vehicle.applyEngineForce, RaycastVehicle.applyEngineForce,
    VehicleState.updateWheel_wheels]
  split <;> simp_all

lemma initWheels_maxSteerVal (s : VehicleState) :
    (Vehicle.initWheels s).maxSteerVal = s.maxSteerVal := by
  simp [Vehicle.initWheels, Vehicle.wheelInitStep, Vehicle.applyEngineForce,
    RaycastVehicle.applyEngineForce, RaycastVehicle.setBrake, Vehicle.setSteeringValue,
    RaycastVehicle.setSteeringValue, VehicleState.updateWheel,
    finval0, finval1, finval2, finval3]

lemma reset_maxSteerVal (s : VehicleState) (pos : Vec3) (orient : Quat) :
    (Vehicle.reset s pos orient).maxSteerVal = s.maxSteerVal := by
  simp [Vehicle.reset, Vehicle.update, Vehicle.setBrakeAllWheels, Vehicle.wheelInitStep,
    Vehicle.applyEngineForce, Vehicle.setSteeringValue, RaycastVehicle.setBrake,
    RaycastVehicle.setSteeringValue, RaycastVehicle.applyEngineForce, VehicleState.updateWheel,
    finval0, finval1, finval2, finval3]

/-- No driver-facing operation changes the steering limit. -/
lemma applyOp_maxSteerVal (s : VehicleState) (op : VehicleOp) :
    (Vehicle.applyOp s op).maxSteerVal = s.maxSteerVal := by
  cases op with
  | steerOp v => rfl
  | accelerateOp b n => rfl
  | brakeOp f => rfl
  | setBrakeAllOp f => rfl
  | setBrakeWheelOp f i => rfl
  | applyEngineForceOp f i => rfl
  | resetOp p q => exact reset_maxSteerVal s p q
  | initWheelsOp => exact initWheels_maxSteerVal s
  | updateOp => rfl

/-- Steering after any driver-facing operation: either untouched, or (on a
front wheel only) the clamped steering command or zero. -/
lemma applyOp_wheels_steering (s : VehicleState) (op : VehicleOp) (j : Fin 4) :
    ((Vehicle.applyOp s op).wheels j).steering = (s.wheels j).steering ∨
    (j.val < 2 ∧ ((Vehicle.applyOp s op).wheels j).steering = 0) ∨
    (j.val < 2 ∧ ∃ v, ((Vehicle.applyOp s op).wheels j).steering =
      max (-s.maxSteerVal) (min s.maxSteerVal v)) := by
  cases op with
  | steerOp v =>
    rw [show Vehicle.applyOp s (VehicleOp.steerOp v) = Vehicle.steer s v from rfl]
    rw [steer_wheels]
    split
    · exact Or.inr (Or.inr ⟨‹_›, v, rfl⟩)
    · exact Or.inl rfl
  | accelerateOp b n => exact Or.inl (accelerate_wheels_steering s b n j)
  | brakeOp f => exact Or.inl (setBrakeAllWheels_steering s _ j)
  | setBrakeAllOp f => exact Or.inl (setBrakeAllWheels_steering s f j)
  | setBrakeWheelOp f i => exact Or.inl (setBrakeWheel_steering s f i j)
  | applyEngineForceOp f i => exact Or.inl (applyEngineForce_steering s f i j)
  | resetOp p q =>
    rw [show Vehicle.applyOp s (VehicleOp.resetOp p q) = Vehicle.reset s p q from rfl]
    rw [reset_wheels_eq]
    by_cases hj : j.val < 2
    · exact Or.inr (Or.inl ⟨hj, by simp [hj]⟩)
    · exact Or.inl (by simp [hj])
  | initWheelsOp =>
    rw [show Vehicle.applyOp s VehicleOp.initWheelsOp = Vehicle.initWheels s from rfl]
    rw [initWheels_wheels]
    by_cases hj : j.val < 2
    · exact Or.inr (Or.inl ⟨hj, by simp [hj]⟩)
    · exact Or.inl (by simp [hj])
  | updateOp => exact Or.inl rfl

/-- Claim C5: `steer` writes the clamped value (bounded by `maxSteerVal` in
absolute value) to the two front wheels and leaves the rear wheels entirely
unchanged; moreover no driver-facing operation ever changes the steering of
the rear wheels, and the front-wheel steering bound `|steer| ≤ maxSteerVal`
is preserved by every driver-facing operation. -/
theorem steer_clamped_and_front_only (s : VehicleState) (v : ℚ) (op : VehicleOp)
    (hm : 0 ≤ s.maxSteerVal) :
    (((Vehicle.steer s v).wheels 0).steering =
        max (-s.maxSteerVal) (min s.maxSteerVal v) ∧
      ((Vehicle.steer s v).wheels 1).steering =
        max (-s.maxSteerVal) (min s.maxSteerVal v) ∧
      |((Vehicle.steer s v).wheels 0).steering| ≤ s.maxSteerVal ∧
      |((Vehicle.steer s v).wheels 1).steering| ≤ s.maxSteerVal ∧
      (Vehicle.steer s v).wheels 2 = s.wheels 2 ∧
      (Vehicle.steer s v).wheels 3 = s.wheels 3) ∧
    (((Vehicle.applyOp s op).wheels 2).steering = (s.wheels 2).steering ∧
      ((Vehicle.applyOp s op).wheels 3).steering = (s.wheels 3).steering) ∧
    (Vehicle.applyOp s op).maxSteerVal = s.maxSteerVal ∧
    (∀ j : Fin 4, |(s.wheels j).steering| ≤ s.maxSteerVal →
      |((Vehicle.applyOp s op).wheels j).steering| ≤ s.maxSteerVal) := by
  have hrear : ∀ j : Fin 4, ¬j.val < 2 →
      ((Vehicle.applyOp s op).wheels j).steering = (s.wheels j).steering := by
    intro j hj
    rcases applyOp_wheels_steering s op j with h | ⟨h2, _⟩ | ⟨h2, _⟩
    · exact h
    · exact absurd h2 hj
    · exact absurd h2 hj
  refine ⟨?_, ⟨hrear 2 (by norm_num [finval2]), hrear 3 (by norm_num [finval3])⟩,
    applyOp_maxSteerVal s op, ?_⟩
  · rw [steer_wheels, steer_wheels, steer_wheels, steer_wheels]
    refine ⟨by simp [finval0], by simp [finval1], ?_, ?_, by simp [finval2], by simp [finval3]⟩
    · simpa [finval0] using abs_clamp_le s.maxSteerVal v hm
    · simpa [finval1] using abs_clamp_le s.maxSteerVal v hm
  · intro j hj
    rcases applyOp_wheels_steering s op j with h | ⟨_, h⟩ | ⟨_, w, h⟩
    · rw [h]; exact hj
    · rw [h]; simpa using hm
    · rw [h]; exact abs_clamp_le s.maxSteerVal w hm

/-- Witness for C5: the initial vehicle's steering limit is nonnegative and
an out-of-range command is clamped within it. -/
theorem steer_clamped_and_front_only_witness :
    0 ≤ Vehicle.mkInitial.maxSteerVal ∧
    |((Vehicle.steer Vehicle.mkInitial 5).wheels 0).steering| ≤
      Vehicle.mkInitial.maxSteerVal := by
  have hm : 0 ≤ Vehicle.mkInitial.maxSteerVal := by
    norm_num [show Vehicle.mkInitial.maxSteerVal = 0.7 from rfl]
  exact ⟨hm,
    (steer_clamped_and_front_only Vehicle.mkInitial 5 VehicleOp.updateOp hm).1.2.2.1⟩

/-- Claim C7: a `resetCar` request made while a reset is already in progress
(`isResetting = true`) is silently ignored — the state is returned entirely
unchanged (no vehicle mutation, no new deferred continuation) and, the
function being total, no error is surfaced. -/
theorem resetCar_reentrant_noop (g : GameState) (n : ℚ)
    (h : g.isResetting = true) : resetCar g n = g := by
  simp [resetCar, h]

/-- A game state in mid-reset, used to witness C7. -/
def gameSample : GameState :=
  { vehiclePresent := true, vehicleVisualPresent := true, isResetting := true,
    vehicle := Vehicle.mkInitial, pendingTimeouts := 0 }

/-- Witness for C7. -/
theorem resetCar_reentrant_noop_witness :
    gameSample.isResetting = true ∧ resetCar gameSample 1 = gameSample :=
  ⟨rfl, resetCar_reentrant_noop gameSample 1 rfl⟩

lemma worldStepSubsteps_le (dt acc : ℚ) (fuel : ℕ) :
    worldStepSubsteps dt acc fuel ≤ fuel := by
  induction fuel generalizing acc with
  | zero => exact Nat.le_refl 0
  | succ k ih =>
    rw [worldStepSubsteps]
    split
    · exact Nat.succ_le_succ (ih _)
    · exact Nat.zero_le _

/-- Claim C9: `PhysicsWorld.update` first clamps the wall-clock delta to at
most 1/30 s, then advances the simulation in sub-steps of exactly the fixed
1/60 s timestep, performing at most `maxSubSteps = 3` of them, so one call
never advances simulated time by more than `maxSubSteps * fixedTimeStep`. -/
theorem physics_update_clamps_and_bounds (w : PhysicsWorldState) (deltaTime : ℚ)
    (hdt : w.fixedTimeStep = 1 / 60) (hms : w.maxSubSteps = 3) :
    (PhysicsWorld.update w deltaTime).clampedDelta ≤ 1 / 30 ∧
    (PhysicsWorld.update w deltaTime).substeps ≤ 3 ∧
    (PhysicsWorld.update w deltaTime).advanced =
      ((PhysicsWorld.update w deltaTime).substeps : ℚ) * (1 / 60) ∧
    (PhysicsWorld.update w deltaTime).advanced ≤ 3 * (1 / 60) := by
  have hsub : (PhysicsWorld.update w deltaTime).substeps ≤ 3 := by
    simp only [PhysicsWorld.update]
    rw [hms]
    exact worldStepSubsteps_le _ _ _
  have hq : ((PhysicsWorld.update w deltaTime).substeps : ℚ) ≤ 3 := by
    exact_mod_cast hsub
  refine ⟨?_, hsub, ?_, ?_⟩
  · simp only [PhysicsWorld.update]
    exact min_le_right _ _
  · simp only [PhysicsWorld.update] at hq ⊢
    rw [hdt]
  · simp only [PhysicsWorld.update] at hq ⊢
    rw [hdt] at hq ⊢
    have h60 : (0 : ℚ) ≤ 1 / 60 := by norm_num
    exact mul_le_mul_of_nonneg_right hq h60

/-- Witness for C9 at the freshly constructed world after a one-second
stall. -/
theorem physics_update_clamps_and_bounds_witness :
    (PhysicsWorld.update PhysicsWorld.mkInitial 1).clampedDelta ≤ 1 / 30 ∧
    (PhysicsWorld.update PhysicsWorld.mkInitial 1).substeps ≤ 3 ∧
    (PhysicsWorld.update PhysicsWorld.mkInitial 1).advanced ≤ 3 * (1 / 60) := by
  have h := physics_update_clamps_and_bounds PhysicsWorld.mkInitial 1 rfl rfl
  exact ⟨h.1, h.2.1, h.2.2.2⟩

lemma resetCallTargets_nil : resetCallTargets [] = [] := rfl

lemma resetCallTargets_cons_reset (p : Vec3) (r : ℚ) (l : List Cmd) :
    resetCallTargets (Cmd.resetCarCmd p r :: l) = (p, r) :: resetCallTargets l := rfl

lemma resetCallTargets_cons_wakeUp (l : List Cmd) :
    resetCallTargets (Cmd.wakeUpCmd :: l) = resetCallTargets l := rfl

lemma resetCallTargets_cons_clampPosY (y : ℚ) (l : List Cmd) :
    resetCallTargets (Cmd.clampPosY y :: l) = resetCallTargets l := rfl

lemma resetCallTargets_cons_impulse (v : Vec3) (l : List Cmd) :
    resetCallTargets (Cmd.impulse v :: l) = resetCallTargets l := rfl

lemma resetCallTargets_cons_accelerate (a : ℚ) (l : List Cmd) :
    resetCallTargets (Cmd.accelerateCmd a :: l) = resetCallTargets l := rfl

lemma resetCallTargets_cons_brake (b : ℚ) (l : List Cmd) :
    resetCallTargets (Cmd.brakeCmd b :: l) = resetCallTargets l := rfl

lemma resetCallTargets_cons_steer (v : ℚ) (l : List Cmd) :
    resetCallTargets (Cmd.steerCmd v :: l) = resetCallTargets l := rfl

lemma resetCallTargets_cons_vehicleUpdate (l : List Cmd) :
    resetCallTargets (Cmd.vehicleUpdateCmd :: l) = resetCallTargets l := rfl

lemma resetCallTargets_cons_visualUpdate (l : List Cmd) :
    resetCallTargets (Cmd.visualUpdateCmd :: l) = resetCallTargets l := rfl

lemma resetCallTargets_cons_camera (l : List Cmd) :
    resetCallTargets (Cmd.cameraCmd :: l) = resetCallTargets l := rfl

lemma resetCallTargets_append (xs ys : List Cmd) :
    resetCallTargets (xs ++ ys) = resetCallTargets xs ++ resetCallTargets ys := by
  simp [resetCallTargets]

lemma resetCallTargets_driveCmds (f : FrameState) (k : Keys) :
    resetCallTargets (driveCmds f k) = [] := by
  unfold driveCmds
  split_ifs <;> simp [resetCallTargets]

lemma resetCallTargets_steerPrelude (f : FrameState) (k : Keys) :
    resetCallTargets (steerPreludeCmds f k) = [] := by
  unfold steerPreludeCmds
  split_ifs <;> simp [resetCallTargets]

/-- Claim C6: whenever the chassis up vector dotted with world up is below
-0.5 (flipped) and the vehicle is otherwise in bounds, the per-frame check
at the end of `updateVehicle` issues exactly one `resetCar` call, targeting
the current track's start pose; once the pose clears the flip condition (and
no reset key or other trigger is active) no reset call is issued. -/
theorem recovery_one_reset_per_frame (f : FrameState) (k : Keys)
    (hv : f.vehiclePresent = true) (hg : f.gameStarted = true) :
    (carUpDotOf f.quat < -0.5 → ¬f.posY < -5 → ¬|f.posX| > 50 → ¬|f.posZ| > 50 →
      resetCallTargets (updateVehicle f k) = [(f.startPos, f.startRot)]) ∧
    (k.reset = false → ¬carUpDotOf f.quat < -0.5 → ¬f.posY < -5 →
      ¬|f.posX| > 50 → ¬|f.posZ| > 50 →
      resetCallTargets (updateVehicle f k) = []) := by
  constructor
  · intro hflip h1 h2 h3
    have hrec : recoveryCondition f := Or.inr (Or.inr (Or.inr hflip))
    by_cases hr : k.reset <;> by_cases hpy : f.posY < 0.5 <;> by_cases hsp : k.space <;>
      simp [updateVehicle, hv, hg, hr, hpy, hsp, hrec, resetCallTargets_append,
        resetCallTargets_driveCmds, resetCallTargets_steerPrelude, resetCallTargets_nil,
        resetCallTargets_cons_reset, resetCallTargets_cons_wakeUp,
        resetCallTargets_cons_clampPosY, resetCallTargets_cons_impulse,
        resetCallTargets_cons_accelerate, resetCallTargets_cons_brake,
        resetCallTargets_cons_steer, resetCallTargets_cons_vehicleUpdate,
        resetCallTargets_cons_visualUpdate, resetCallTargets_cons_camera]
  · intro hr hflip h1 h2 h3
    have hrec : ¬recoveryCondition f := by
      simp only [recoveryCondition, not_or]
      exact ⟨h1, h2, h3, hflip⟩
    by_cases hpy : f.posY < 0.5 <;> by_cases hsp : k.space <;>
      simp [updateVehicle, hv, hg, hr, hpy, hsp, hrec, resetCallTargets_append,
        resetCallTargets_driveCmds, resetCallTargets_steerPrelude, resetCallTargets_nil,
        resetCallTargets_cons_reset, resetCallTargets_cons_wakeUp,
        resetCallTargets_cons_clampPosY, resetCallTargets_cons_impulse,
        resetCallTargets_cons_accelerate, resetCallTargets_cons_brake,
        resetCallTargets_cons_steer, resetCallTargets_cons_vehicleUpdate,
        resetCallTargets_cons_visualUpdate, resetCallTargets_cons_camera]

lemma option_elim_none_some (o : Option ℚ) : o.elim none some = o := by
  cases o <;> rfl

lemma lastArgWith_foldl_acc (g : Cmd → Option ℚ) (acc : Option ℚ) (ys : List Cmd) :
    ys.foldl (fun a c => (g c).elim a some) acc = (lastArgWith g ys).elim acc some := by
  induction ys generalizing acc with
  | nil => simp [lastArgWith]
  | cons c l ih =>
    rw [List.foldl_cons, ih]
    rw [show lastArgWith g (c :: l) = l.foldl (fun a c => (g c).elim a some) ((g c).elim none some)
      from rfl, ih]
    cases h : g c <;> cases h2 : lastArgWith g l <;> simp [h, h2]

lemma lastArgWith_nil (g : Cmd → Option ℚ) : lastArgWith g [] = none := rfl

lemma lastArgWith_cons (g : Cmd → Option ℚ) (c : Cmd) (l : List Cmd) :
    lastArgWith g (c :: l) = (lastArgWith g l).elim ((g c).elim none some) some := by
  rw [show lastArgWith g (c :: l) = l.foldl (fun a c => (g c).elim a some) ((g c).elim none some)
    from rfl, lastArgWith_foldl_acc]

lemma lastArgWith_append (g : Cmd → Option ℚ) (xs ys : List Cmd) :
    lastArgWith g (xs ++ ys) = (lastArgWith g ys).elim (lastArgWith g xs) some := by
  rw [show lastArgWith g (xs ++ ys) = (xs ++ ys).foldl (fun a c => (g c).elim a some) none
    from rfl, List.foldl_append, lastArgWith_foldl_acc]
  rfl

/-- Claim C8: in a frame where the emergency-brake flag is set (and the
frame is not short-circuited by the reset key), the input mapper's final
brake command to the vehicle is the maximum brake force and its final
engine command is `accelerate(0)`, whatever the accelerate and brake flags
are; the steering command for the frame is still computed and applied. -/
theorem emergency_brake_override (f : FrameState) (k : Keys)
    (hv : f.vehiclePresent = true) (hg : f.gameStarted = true)
    (hr : k.reset = false) (he : k.space = true) :
    lastBrakeArg (updateVehicle f k) = some f.maxBrakeForce ∧
    lastAccelArg (updateVehicle f k) = some 0 ∧
    lastSteerArg (updateVehicle f k) = some (newSteerValueOf f k) := by
  unfold lastBrakeArg lastAccelArg lastSteerArg
  by_cases hrec : recoveryCondition f <;> by_cases hpy : f.posY < 0.5 <;>
    refine ⟨?_, ?_, ?_⟩ <;>
      simp [updateVehicle, hv, hg, hr, he, hrec, hpy,
        lastArgWith_append, lastArgWith_cons, lastArgWith_nil,
        brakeArgOf, accelArgOf, steerArgOf]

/-- A concrete in-bounds but flipped frame (chassis rolled 180° about z, so
the up vector points straight down), with the straight track's start pose. -/
def frameFlipped : FrameState :=
  { vehiclePresent := true, gameStarted := true, currentSpeed := 0, velocityZ := 0,
    posX := 0, posY := 1, posZ := 0, quat := ⟨0, 0, 1, 0⟩, previousSteerValue := 0,
    maxForce := 6000, maxSteerVal := 0.7, maxBrakeForce := 6000,
    startPos := ⟨50, 3.5, 450⟩, startRot := -0.7 }

/-- The same frame with the chassis upright. -/
def frameUpright : FrameState := { frameFlipped with quat := Quat.identity }

/-- No key pressed. -/
def keysIdle : Keys :=
  { accelerate := false, brake := false, left := false, right := false,
    reset := false, space := false }

/-- Witness for C6: the flipped frame issues exactly one reset call to the
start pose, the upright frame issues none. -/
theorem recovery_one_reset_per_frame_witness :
    resetCallTargets (updateVehicle frameFlipped keysIdle) =
      [(frameFlipped.startPos, frameFlipped.startRot)] ∧
    resetCallTargets (updateVehicle frameUpright keysIdle) = [] := by
  refine ⟨(recovery_one_reset_per_frame frameFlipped keysIdle rfl rfl).1 ?_ ?_ ?_ ?_,
    (recovery_one_reset_per_frame frameUpright keysIdle rfl rfl).2 rfl ?_ ?_ ?_ ?_⟩
  · norm_num [frameFlipped, carUpDotOf, threeApplyQuaternion, Vec3.dot]
  · norm_num [frameFlipped]
  · norm_num [frameFlipped]
  · norm_num [frameFlipped]
  · norm_num [frameUpright, frameFlipped, Quat.identity, carUpDotOf,
      threeApplyQuaternion, Vec3.dot]
  · norm_num [frameUpright, frameFlipped]
  · norm_num [frameUpright, frameFlipped]
  · norm_num [frameUpright, frameFlipped]

/-- The emergency-brake key chord with the accelerator also held. -/
def keysEmergency : Keys :=
  { accelerate := true, brake := false, left := false, right := false,
    reset := false, space := true }

/-- Witness for C8 on a concrete upright frame with the accelerator and
space bar held together. -/
theorem emergency_brake_override_witness :
    lastBrakeArg (updateVehicle frameUpright keysEmergency) =
      some frameUpright.maxBrakeForce ∧
    lastAccelArg (updateVehicle frameUpright keysEmergency) = some 0 ∧
    lastSteerArg (updateVehicle frameUpright keysEmergency) =
      some (newSteerValueOf frameUpright keysEmergency) :=
  emergency_brake_override frameUpright keysEmergency rfl rfl rfl rfl
